import Mathlib

/-!
Verification of the safety layer of `src/core/safety.py`
(`SafetyLayer.validate_code`, `SafetyLayer.dry_run`,
`SafetyLayer.get_green_light`, `ContentSafetyChecker.check_content` and its
score helpers).

The Python source matches its blocklists with `re.search(pattern, code,
re.IGNORECASE | re.DOTALL)`.  We embed the exact fragment of Python's
regular-expression language that those fixed pattern tables use:
single-character predicates (`\s`, `\w`, `.` under DOTALL, literals,
character classes), the repetitions `*`, `+` and `{lo,hi}` (each of which,
in these tables, is only ever applied to a single-character predicate),
the word boundary `\b`, the negative lookahead `(?!...)` and the negative
lookbehind `(?<!...)`.  CPython compiles a pattern before searching and
rejects a lookbehind whose body does not have a fixed width, raising
`re.error("look-behind requires fixed-width pattern")`; `reSearch` below
models that compile-time check, returning `Except.error` with that exact
message.  Lookaround bodies in the source's tables contain no nested
lookarounds, so they are embedded as lists of simple items (`SItem`).
-/

set_option autoImplicit false

namespace SafetyLayerModel

/-- Single-character predicates of the embedded regex fragment. -/
inductive CPred where
  /-- `.` under `re.DOTALL`: any character. -/
  | anyc
  /-- `\s` -/
  | ws
  /-- `\w` -/
  | wd
  /-- a literal character (compared case-insensitively, `re.IGNORECASE`) -/
  | lit (c : Char)
  /-- a character class `[...]` / `[^...]` -/
  | cls (neg : Bool) (cs : List Char)
  deriving Repr, DecidableEq

/-- Items allowed inside a lookaround body (no nested lookarounds occur in
the source's pattern tables). -/
inductive SItem where
  | one (p : CPred)
  | star (p : CPred)
  | plus (p : CPred)
  | rep (p : CPred) (lo hi : Nat)
  | wordB
  deriving Repr, DecidableEq

/-- Top-level regex items. -/
inductive RItem where
  | one (p : CPred)
  | star (p : CPred)
  | plus (p : CPred)
  | rep (p : CPred) (lo hi : Nat)
  | wordB
  /-- negative lookahead `(?!...)` -/
  | nla (r : List SItem)
  /-- negative lookbehind `(?<!...)` -/
  | nlb (r : List SItem)
  deriving Repr, DecidableEq

/-- Python `\w` on ASCII text: `[a-zA-Z0-9_]`. -/
def isWordChar (c : Char) : Bool := c.isAlphanum || c == '_'

/-- Python `\s` on ASCII text: `[ \t\n\r\f\v]`. -/
def isSpaceChar (c : Char) : Bool :=
  c == ' ' || c == '\t' || c == '\n' || c == '\r' || c == '\x0b' || c == '\x0c'

/-- Does a character satisfy a single-character predicate?  Literals and
classes compare case-insensitively, mirroring `re.IGNORECASE`. -/
def cpMatch : CPred → Char → Bool
  | .anyc, _ => true
  | .ws, c => isSpaceChar c
  | .wd, c => isWordChar c
  | .lit l, c => c.toLower == l.toLower
  | .cls neg cs, c =>
    let m := cs.any (fun x => c.toLower == x.toLower)
    if neg then !m else m

/-- Is the character at position `i` (if any) a word character? -/
def wordAt (s : List Char) (i : Nat) : Bool :=
  match s.get? i with
  | some c => isWordChar c
  | none => false

/-- `\b`: a word boundary sits at position `i` iff exactly one of the
characters around the gap is a word character. -/
def boundary (s : List Char) (i : Nat) : Bool :=
  (decide (i ≠ 0) && wordAt s (i - 1)) != wordAt s i

/-- Length of the maximal run of characters satisfying `p` starting at
position `i`. -/
def maxRun (p : CPred) (s : List Char) (i : Nat) : Nat :=
  ((s.drop i).takeWhile (cpMatch p)).length

/-- Concatenated image of `f` over a list (a local, definitionally
reducing `bind`). -/
def catMap (f : Nat → List Nat) : List Nat → List Nat
  | [] => []
  | a :: l => f a ++ catMap f l

/-- All positions at which a list of simple items can finish matching when
started at position `i` of `s`.  Returning every reachable end position
makes this an exhaustive-backtracking semantics: a match exists iff the
result is nonempty. -/
def matchS (s : List Char) : List SItem → Nat → List Nat
  | [], i => [i]
  | .one p :: rest, i =>
    match s.get? i with
    | some c => if cpMatch p c then matchS s rest (i + 1) else []
    | none => []
  | .star p :: rest, i =>
    catMap (fun k => matchS s rest (i + k)) (List.range (maxRun p s i + 1))
  | .plus p :: rest, i =>
    catMap (fun k => matchS s rest (i + 1 + k)) (List.range (maxRun p s i))
  | .rep p lo hi :: rest, i =>
    let m := min hi (maxRun p s i)
    if lo ≤ m then catMap (fun k => matchS s rest (i + lo + k)) (List.range (m - lo + 1))
    else []
  | .wordB :: rest, i => if boundary s i then matchS s rest i else []

/-- Width of a fixed-width simple item (only consulted after the
fixed-width check below has accepted the enclosing lookbehind). -/
def sItemWidth : SItem → Nat
  | .one _ => 1
  | .rep _ lo _ => lo
  | _ => 0

/-- CPython's fixed-width requirement on lookbehind bodies: each item must
have one fixed length. -/
def sItemFixed : SItem → Bool
  | .one _ => true
  | .wordB => true
  | .rep _ lo hi => lo == hi
  | .star _ => false
  | .plus _ => false

/-- A top-level item compiles iff any lookbehind body it carries is
fixed-width. -/
def rItemOk : RItem → Bool
  | .nlb body => body.all sItemFixed
  | _ => true

/-- All positions at which a list of top-level items can finish matching
when started at position `i` of `s`. -/
def matchR (s : List Char) : List RItem → Nat → List Nat
  | [], i => [i]
  | .one p :: rest, i =>
    match s.get? i with
    | some c => if cpMatch p c then matchR s rest (i + 1) else []
    | none => []
  | .star p :: rest, i =>
    catMap (fun k => matchR s rest (i + k)) (List.range (maxRun p s i + 1))
  | .plus p :: rest, i =>
    catMap (fun k => matchR s rest (i + 1 + k)) (List.range (maxRun p s i))
  | .rep p lo hi :: rest, i =>
    let m := min hi (maxRun p s i)
    if lo ≤ m then catMap (fun k => matchR s rest (i + lo + k)) (List.range (m - lo + 1))
    else []
  | .wordB :: rest, i => if boundary s i then matchR s rest i else []
  | .nla r :: rest, i =>
    if (matchS s r i).isEmpty then matchR s rest i else []
  | .nlb r :: rest, i =>
    let w := (r.map sItemWidth).sum
    if w ≤ i then
      if (matchS s r (i - w)).contains i then [] else matchR s rest i
    else matchR s rest i

/-- `re.search` semantics: a match may start at any position of the
string, including its end. -/
def reMatches (r : List RItem) (s : List Char) : Bool :=
  (List.range (s.length + 1)).any (fun i => !(matchR s r i).isEmpty)

/-- `re.search(pattern, s, re.IGNORECASE | re.DOTALL)` returning whether a
match exists; compiling first, so a variable-width lookbehind raises
CPython's `re.error` (modelled as `Except.error` with CPython's message)
no matter what `s` is. -/
def reSearch (r : List RItem) (s : String) : Except String Bool :=
  if r.all rItemOk then .ok (reMatches r s.data)
  else .error "look-behind requires fixed-width pattern"

/-- A literal word as a sequence of case-insensitive literal items. -/
def lits (txt : String) : List RItem :=
  txt.data.map (fun c => .one (.lit c))

/-- A literal word as a sequence of simple items (for lookaround bodies). -/
def litsS (txt : String) : List SItem :=
  txt.data.map (fun c => .one (.lit c))

/-! ### The pattern tables of `SafetyLayer` (src/core/safety.py lines 43-68)

Each entry pairs the original pattern source text (used verbatim in the
`f"Blocked pattern detected: {pattern}"` message) with its embedding. -/

/-- `\bDROP\s+DATABASE\b` -/
def patDropDatabase : List RItem :=
  [.wordB] ++ lits "DROP" ++ [.plus .ws] ++ lits "DATABASE" ++ [.wordB]

/-- `\bDROP\s+TABLE\b(?!\s+IF\s+EXISTS)` (allow `DROP TABLE IF EXISTS`) -/
def patDropTable : List RItem :=
  [.wordB] ++ lits "DROP" ++ [.plus .ws] ++ lits "TABLE" ++
    [.wordB, .nla ([.plus .ws] ++ litsS "IF" ++ [.plus .ws] ++ litsS "EXISTS")]

/-- `\bTRUNCATE\s+TABLE\b` -/
def patTruncate : List RItem :=
  [.wordB] ++ lits "TRUNCATE" ++ [.plus .ws] ++ lits "TABLE" ++ [.wordB]

/-- `\bDELETE\s+FROM\s+\w+\s*;` (DELETE without WHERE) -/
def patDeleteNoWhere : List RItem :=
  [.wordB] ++ lits "DELETE" ++ [.plus .ws] ++ lits "FROM" ++
    [.plus .ws, .plus .wd, .star .ws, .one (.lit ';')]

/-- `\bUPDATE\s+\w+\s+SET\s+.*(?<!WHERE\s+.{1,100});` (UPDATE without
WHERE).  Its lookbehind body `WHERE\s+.{1,100}` is variable-width, so
CPython refuses to compile it. -/
def patUpdateNoWhere : List RItem :=
  [.wordB] ++ lits "UPDATE" ++ [.plus .ws, .plus .wd, .plus .ws] ++ lits "SET" ++
    [.plus .ws, .star .anyc,
     .nlb (litsS "WHERE" ++ [.plus .ws, .rep .anyc 1 100]),
     .one (.lit ';')]

/-- `--.*DROP` -/
def patCommentDrop : List RItem := lits "--" ++ [.star .anyc] ++ lits "DROP"

/-- `;\s*DROP` -/
def patSemiDrop : List RItem := [.one (.lit ';'), .star .ws] ++ lits "DROP"

/-- `GRANT\s+ALL` -/
def patGrantAll : List RItem := lits "GRANT" ++ [.plus .ws] ++ lits "ALL"

/-- `CREATE\s+USER` -/
def patCreateUser : List RItem := lits "CREATE" ++ [.plus .ws] ++ lits "USER"

/-- `ALTER\s+USER` -/
def patAlterUser : List RItem := lits "ALTER" ++ [.plus .ws] ++ lits "USER"

/-- `SafetyLayer.BLOCKED_PATTERNS` (safety.py lines 43-54), in source
order, paired with the source text of each pattern. -/
def BLOCKED_PATTERNS : List (String × List RItem) :=
  [("\\bDROP\\s+DATABASE\\b", patDropDatabase),
   ("\\bDROP\\s+TABLE\\b(?!\\s+IF\\s+EXISTS)", patDropTable),
   ("\\bTRUNCATE\\s+TABLE\\b", patTruncate),
   ("\\bDELETE\\s+FROM\\s+\\w+\\s*;", patDeleteNoWhere),
   ("\\bUPDATE\\s+\\w+\\s+SET\\s+.*(?<!WHERE\\s+.\x7b1,100\x7d);", patUpdateNoWhere),
   ("--.*DROP", patCommentDrop),
   (";\\s*DROP", patSemiDrop),
   ("GRANT\\s+ALL", patGrantAll),
   ("CREATE\\s+USER", patCreateUser),
   ("ALTER\\s+USER", patAlterUser)]

/-- A quote character class `['\"]`. -/
def quoteCls : CPred := .cls false ['\x27', '"']

/-- `SafetyLayer.BLOCKED_PYTHON_PATTERNS` (safety.py lines 57-68). -/
def BLOCKED_PYTHON_PATTERNS : List (String × List RItem) :=
  [("\\bos\\.system\\b", [.wordB] ++ lits "os.system" ++ [.wordB]),
   ("\\bsubprocess\\b", [.wordB] ++ lits "subprocess" ++ [.wordB]),
   ("\\beval\\b", [.wordB] ++ lits "eval" ++ [.wordB]),
   ("\\bexec\\b", [.wordB] ++ lits "exec" ++ [.wordB]),
   ("\\b__import__\\b", [.wordB] ++ lits "__import__" ++ [.wordB]),
   ("\\bopen\\s*\\([^)]*[\x27\"]w[\x27\"]",
     [.wordB] ++ lits "open" ++
       [.star .ws, .one (.lit '('), .star (.cls true [')']),
        .one quoteCls, .one (.lit 'w'), .one quoteCls]),
   ("\\brequests\\.delete\\b", [.wordB] ++ lits "requests.delete" ++ [.wordB]),
   ("\\bshutil\\.rmtree\\b", [.wordB] ++ lits "shutil.rmtree" ++ [.wordB]),
   ("\\bos\\.remove\\b", [.wordB] ++ lits "os.remove" ++ [.wordB]),
   ("\\bos\\.unlink\\b", [.wordB] ++ lits "os.unlink" ++ [.wordB])]

/-! ### Data model (safety.py lines 16-31) -/

/-- `RiskLevel` (safety.py lines 16-20). -/
inductive RiskLevel where
  | LOW
  | MEDIUM
  | HIGH
  | BLOCKED
  deriving Repr, DecidableEq, BEq

/-- `SafetyResult` (safety.py lines 23-31). -/
structure SafetyResult where
  passed : Bool
  risk_level : RiskLevel
  message : String
  rows_affected : Int := 0
  verification_passed : Bool := false
  dry_run_output : Option String := none
  deriving Repr, DecidableEq

/-! ### `SafetyLayer.validate_code` (safety.py lines 73-104) -/

/-- Python's substring operator `needle in hay`. -/
def strContains (hay needle : String) : Bool :=
  (List.range (hay.data.length + 1)).any (fun i => needle.data.isPrefixOf (hay.data.drop i))

/-- Python `str.upper()` on ASCII text. -/
def pyUpper (s : String) : String := ⟨s.data.map Char.toUpper⟩

/-- Python `str.lower()` on ASCII text. -/
def pyLower (s : String) : String := ⟨s.data.map Char.toLower⟩

/-- Python `str.strip()`: drop leading and trailing whitespace. -/
def pyStrip (s : String) : String :=
  ⟨((s.data.dropWhile isSpaceChar).reverse.dropWhile isSpaceChar).reverse⟩

/-- The `for pattern in patterns: if re.search(pattern, code, ...)` loop of
`validate_code` (lines 87-89): the first match wins, and a pattern that
fails to compile raises (propagated as `Except.error`). -/
def firstBlockedMatch : List (String × List RItem) → String → Except String (Option String)
  | [], _ => .ok none
  | (src, pat) :: rest, code =>
    match reSearch pat code with
    | .error e => .error e
    | .ok true => .ok (some src)
    | .ok false => firstBlockedMatch rest code

/-- The SQL risk-indicator block of `validate_code` (lines 91-104):
`risk_level` starts LOW; `DELETE` assigns MEDIUM; `UPDATE` without `WHERE`
returns early with BLOCKED; `DROP` assigns HIGH; `ALTER` assigns MEDIUM
(note: plain assignments, not max). -/
def sql_risk_heuristics (code_upper : String) : Bool × String × RiskLevel :=
  let risk1 := if strContains code_upper "DELETE" then RiskLevel.MEDIUM else RiskLevel.LOW
  if strContains code_upper "UPDATE" && !strContains code_upper "WHERE" then
    (false, "UPDATE without WHERE clause", RiskLevel.BLOCKED)
  else
    let risk2 := if strContains code_upper "DROP" then RiskLevel.HIGH else risk1
    let risk3 := if strContains code_upper "ALTER" then RiskLevel.MEDIUM else risk2
    (true, "Code passed static analysis", risk3)

/-- `SafetyLayer.validate_code` (lines 73-104).  The result triple is
`(is_safe, message, risk_level)`; `Except.error` models an escaping
Python exception (here only `re.error` from pattern compilation). -/
def validate_code (code : String) (fix_type : String) : Except String (Bool × String × RiskLevel) :=
  let code_upper := pyUpper code
  let patterns := if fix_type = "sql" then BLOCKED_PATTERNS else BLOCKED_PYTHON_PATTERNS
  match firstBlockedMatch patterns code with
  | .error e => .error e
  | .ok (some src) => .ok (false, "Blocked pattern detected: " ++ src, RiskLevel.BLOCKED)
  | .ok none =>
    if fix_type = "sql" then
      .ok (sql_risk_heuristics code_upper)
    else
      .ok (true, "Code passed static analysis", RiskLevel.LOW)

/-! ### `SafetyLayer.dry_run` (safety.py lines 106-235)

The sqlite connection and the restricted Python `exec` namespace are
external to the gate; they are abstracted as an engine whose operations
may fail with an exception message.  The gate's own control flow —
static validation outside the `try`, blocked short-circuit before the
temporary database is created, the statement loop with its non-negative
`rows_affected` accumulation, the 10000-row cap, and the
`except Exception` clause that converts an execution failure into
`passed=False, risk=HIGH` — is embedded exactly. -/

/-- Abstract interface of the sandbox's sqlite connection (plus the
restricted `exec` used for python-kind artifacts). -/
structure SqliteEngine (σ : Type) where
  init : σ
  execScript : σ → String → Except String σ
  execStmt : σ → String → Except String (σ × Int)
  execPython : σ → String → Except String σ

/-- `self.max_rows_affected` (line 71). -/
def max_rows_affected : Int := 10000

/-- `[s.strip() for s in code.split(";") if s.strip()]` (line 159). -/
def splitStatements (code : String) : List String :=
  ((code.splitOn ";").map pyStrip).filter (fun s => s != "")

/-- The statement loop (lines 161-163): execute each statement, adding
`cursor.rowcount` to the accumulator only when positive. -/
def runStatements {σ : Type} (eng : SqliteEngine σ) : σ → List String → Int → Except String (σ × Int)
  | st, [], acc => .ok (st, acc)
  | st, stmt :: rest, acc =>
    match eng.execStmt st stmt with
    | .error e => .error e
    | .ok (st2, rc) => runStatements eng st2 rest (acc + if rc > 0 then rc else 0)

/-- `cursor.executescript(...)` guarded by `if schema_sql:` /
`if sample_data_sql:` (lines 146-150). -/
def execOptScript {σ : Type} (eng : SqliteEngine σ) (st : σ) (sql : Option String) : Except String σ :=
  match sql with
  | none => .ok st
  | some s => eng.execScript st s

/-- The body of `dry_run`'s `try` block (lines 141-221), producing either
a `SafetyResult` or an exception message that the `except` clause will
catch. -/
def dryRunBody {σ : Type} (eng : SqliteEngine σ) (code fix_type : String)
    (risk_level : RiskLevel) (schema_sql sample_data_sql : Option String) :
    Except String SafetyResult :=
  match execOptScript eng eng.init schema_sql with
  | .error e => .error e
  | .ok st1 =>
    match execOptScript eng st1 sample_data_sql with
    | .error e => .error e
    | .ok st2 =>
      if fix_type = "sql" then
        match runStatements eng st2 (splitStatements code) 0 with
        | .error e => .error e
        | .ok (_, rows_affected) =>
          if rows_affected > max_rows_affected then
            .ok { passed := false, risk_level := RiskLevel.HIGH,
                  message := "Too many rows affected: " ++ toString rows_affected ++
                    " > " ++ toString max_rows_affected,
                  rows_affected := rows_affected }
          else
            .ok { passed := true, risk_level := risk_level,
                  message := "Dry run completed successfully",
                  rows_affected := rows_affected,
                  dry_run_output := some ("Affected " ++ toString rows_affected ++ " rows") }
      else
        match eng.execPython st2 code with
        | .error e => .error e
        | .ok _ =>
          .ok { passed := true, risk_level := risk_level,
                message := "Python code executed successfully in sandbox",
                verification_passed := true }

/-- Outcome of a `dry_run` call: `result` is the returned `SafetyResult`,
or `Except.error` when a raw Python exception escapes the method;
`storage_allocated` records whether the temporary database file was
created (line 138). -/
structure DryRunTrace where
  result : Except String SafetyResult
  storage_allocated : Bool
  deriving Repr

/-- `SafetyLayer.dry_run` (lines 106-235).  `validate_code` runs before
the `try` block, so an exception it raises escapes; an unsafe validation
short-circuits before the temporary database is allocated; everything
raised inside the `try` is converted by `except Exception as e` into
`passed=False, risk=HIGH, message=f"Dry run failed: {e}"`. -/
def dry_run {σ : Type} (eng : SqliteEngine σ) (code fix_type : String)
    (schema_sql sample_data_sql : Option String) : DryRunTrace :=
  match validate_code code fix_type with
  | .error e => { result := .error e, storage_allocated := false }
  | .ok (is_safe, message, risk_level) =>
    if !is_safe then
      { result := .ok { passed := false, risk_level := risk_level, message := message },
        storage_allocated := false }
    else
      match dryRunBody eng code fix_type risk_level schema_sql sample_data_sql with
      | .error e =>
        { result := .ok { passed := false, risk_level := RiskLevel.HIGH,
                          message := "Dry run failed: " ++ e },
          storage_allocated := true }
      | .ok r => { result := .ok r, storage_allocated := true }

/-! ### `SafetyLayer.get_green_light` (safety.py lines 274-294) -/

/-- `risk_order` (line 289). -/
def risk_order : List RiskLevel := [.LOW, .MEDIUM, .HIGH, .BLOCKED]

/-- `SafetyLayer.get_green_light` (lines 274-294): proceed iff the dry
run passed and `risk_order.index(result.risk_level) <=
risk_order.index(risk_tolerance)`. -/
def get_green_light (dry_run_result : SafetyResult) (risk_tolerance : RiskLevel) : Bool :=
  if !dry_run_result.passed then false
  else if risk_order.indexOf dry_run_result.risk_level ≤ risk_order.indexOf risk_tolerance then
    true
  else false

/-- Rank of a risk level in the order stated by the spec,
LOW < MEDIUM < HIGH < BLOCKED (spec section 3). -/
def riskRank : RiskLevel → Nat
  | .LOW => 0
  | .MEDIUM => 1
  | .HIGH => 2
  | .BLOCKED => 3

/-- The spec's comparison `risk_level <= tolerance` under
LOW < MEDIUM < HIGH < BLOCKED, written from the spec's words for the
refinement claims about the gate. -/
def riskLE (a b : RiskLevel) : Bool := decide (riskRank a ≤ riskRank b)

/-! ### `ContentSafetyChecker` (safety.py lines 301-471)

Python computes the two scores with floats; every constant here is an
exact decimal (`0.3`, `0.2`, `0.5`), so they are embedded as rationals.
The structure of every computation — counts of case-insensitive substring
matches, `min`/`max` clipping — is preserved exactly. -/

/-- `ContentSafetyResult` (lines 301-308). -/
structure ContentSafetyResult where
  passed : Bool
  message : String
  issues_found : List String
  tone_score : ℚ
  professionalism_score : ℚ
  deriving Repr, DecidableEq

/-- `ContentSafetyChecker.UNIVERSAL_FORBIDDEN` (lines 318-329). -/
def UNIVERSAL_FORBIDDEN : List String :=
  ["kill yourself", "go die", "i hate you", "you\x27re stupid", "f**k",
   "shit", "damn", "crap", "idiot", "moron"]

/-- `ContentSafetyChecker.PROFESSIONAL_INDICATORS` (lines 332-340). -/
def PROFESSIONAL_INDICATORS : List String :=
  ["thank you", "please", "appreciate", "happy to help", "let me know",
   "best regards", "sincerely"]

/-- `ContentSafetyChecker.FRIENDLY_INDICATORS` (lines 342-351). -/
def FRIENDLY_INDICATORS : List String :=
  ["hey", "awesome", "great", "absolutely", "no problem", "glad to",
   "happy to", "!"]

/-- The informal markers of `_calculate_professionalism_score` (line 445). -/
def informalWords : List String :=
  ["gonna", "wanna", "gotta", "dunno", "lol", "lmao", "omg", "wtf"]

/-- `ContentSafetyChecker._calculate_tone_score` (lines 421-435):
`min(1.0, matches / max(3, len(indicators) * 0.3))` over the indicator
list selected by `required_tone` ("casual" shares the friendly list). -/
def calculate_tone_score (content : String) (required_tone : String) : ℚ :=
  let content_lower := pyLower content
  let indicators :=
    if required_tone = "professional" then PROFESSIONAL_INDICATORS
    else if required_tone = "friendly" then FRIENDLY_INDICATORS
    else FRIENDLY_INDICATORS
  let matchCount := (indicators.filter (fun ind => strContains content_lower (pyLower ind))).length
  min 1 ((matchCount : ℚ) / max 3 ((indicators.length : ℚ) * (3 / 10)))

/-- `ContentSafetyChecker._calculate_professionalism_score` (lines
437-451): `max(0.0, min(1.0, 0.5 + positive*0.2 - negative*0.3))`. -/
def calculate_professionalism_score (content : String) : ℚ :=
  let content_lower := pyLower content
  let positive := (PROFESSIONAL_INDICATORS.filter
    (fun ind => strContains content_lower (pyLower ind))).length
  let negative := (informalWords.filter
    (fun word => strContains content_lower word)).length
  let score := (positive : ℚ) * (2 / 10) - (negative : ℚ) * (3 / 10)
  max 0 (min 1 (1 / 2 + score))

/-- The universal forbidden-word loop of `check_content` (lines 379-381),
in list order. -/
def universal_issues (content_lower : String) : List String :=
  (UNIVERSAL_FORBIDDEN.filter (fun word => strContains content_lower (pyLower word))).map
    (fun word => "Forbidden word detected: \x27" ++ word ++ "\x27")

/-- The client-specific forbidden-word loop of `check_content`
(lines 384-387). -/
def client_issues (content_lower : String) (forbidden_words : List String) : List String :=
  (forbidden_words.filter (fun word => strContains content_lower (pyLower word))).map
    (fun word => "Client-forbidden word: \x27" ++ word ++ "\x27")

/-- The `issues` list accumulated by `check_content` (lines 375-409), in
append order: universal forbidden words, client forbidden words, length,
emptiness, tone mismatch, missing professionalism markers. -/
def check_issues (content : String) (forbidden_words : List String)
    (required_tone : String) (max_length : Nat) : List String :=
  let content_lower := pyLower content
  universal_issues content_lower
  ++ (if forbidden_words.isEmpty then [] else client_issues content_lower forbidden_words)
  ++ (if content.length > max_length then
        ["Response too long: " ++ toString content.length ++ " > " ++ toString max_length]
      else [])
  ++ (if (pyStrip content).length < 10 then ["Response too short or empty"] else [])
  ++ (if calculate_tone_score content required_tone < 3 / 10 then
        ["Tone mismatch: expected \x27" ++ required_tone ++ "\x27"]
      else [])
  ++ (if (required_tone = "professional" ∨ required_tone = "friendly")
        ∧ calculate_professionalism_score content < 2 / 10 then
        ["Response lacks professionalism markers"]
      else [])

/-- `ContentSafetyChecker.check_content` (lines 356-419); `passed` is
`len(issues) == 0`. -/
def check_content (content : String) (forbidden_words : List String)
    (required_tone : String) (max_length : Nat) : ContentSafetyResult :=
  let issues := check_issues content forbidden_words required_tone max_length
  { passed := issues.length == 0,
    message := if issues.length == 0 then "Content passed all checks"
               else "Found " ++ toString issues.length ++ " issues",
    issues_found := issues,
    tone_score := calculate_tone_score content required_tone,
    professionalism_score := calculate_professionalism_score content }

/-! ### Concrete sample values used to instantiate the general theorems -/

/-- A trivial engine over a unit state: every operation succeeds, every
statement reports one affected row. -/
def unitEngine : SqliteEngine Unit where
  init := ()
  execScript := fun _ _ => .ok ()
  execStmt := fun _ _ => .ok ((), 1)
  execPython := fun _ _ => .ok ()

/-- A passed report carrying risk BLOCKED (the shape `get_green_light`
is claimed to reject unconditionally). -/
def blockedPassedReport : SafetyResult :=
  { passed := true, risk_level := RiskLevel.BLOCKED, message := "" }

/-- The report `dry_run` produces for a successfully executed
python-kind artifact of LOW static risk. -/
def pythonOkSample : SafetyResult :=
  { passed := true, risk_level := RiskLevel.LOW,
    message := "Python code executed successfully in sandbox",
    verification_passed := true }

/-! ### Helper lemmas -/

/-- The SQL risk-indicator block never reports BLOCKED together with
`is_safe = true`: its safe exit carries LOW, MEDIUM or HIGH. -/
theorem sql_risk_heuristics_safe_risk (cu m : String) (r : RiskLevel)
    (h : sql_risk_heuristics cu = (true, m, r)) : r ≠ RiskLevel.BLOCKED := by
  simp only [sql_risk_heuristics] at h
  split_ifs at h <;> simp only [Prod.mk.injEq] at h
  · exact absurd h.1 (by decide)
  all_goals obtain ⟨-, -, hr⟩ := h
  all_goals subst hr
  all_goals decide

/-- A safe verdict of `validate_code` never carries risk BLOCKED. -/
theorem validate_code_safe_risk (code fix_type m : String) (r : RiskLevel)
    (h : validate_code code fix_type = .ok (true, m, r)) : r ≠ RiskLevel.BLOCKED := by
  simp only [validate_code] at h
  split at h
  · exact Except.noConfusion h
  · injection h with h
    simp only [Prod.mk.injEq] at h
    exact absurd h.1 (by decide)
  · split at h
    · injection h with h
      exact sql_risk_heuristics_safe_risk _ _ _ h
    · injection h with h
      simp only [Prod.mk.injEq] at h
      obtain ⟨-, -, hr⟩ := h
      subst hr
      decide

/-- Any report the `try`-block body returns with `passed = true` carries
exactly the risk level handed down from static validation. -/
theorem dryRunBody_ok_risk {σ : Type} (eng : SqliteEngine σ) (code fix_type : String)
    (rl : RiskLevel) (schema_sql sample_data_sql : Option String) (r : SafetyResult)
    (h : dryRunBody eng code fix_type rl schema_sql sample_data_sql = .ok r)
    (hp : r.passed = true) : r.risk_level = rl := by
  unfold dryRunBody at h
  split at h
  · exact Except.noConfusion h
  · split at h
    · exact Except.noConfusion h
    · split at h
      · split at h
        · exact Except.noConfusion h
        · split at h
          · injection h with h
            subst h
            simp at hp
          · injection h with h
            subst h
            rfl
      · split at h
        · exact Except.noConfusion h
        · injection h with h
          subst h
          rfl

/-! ### Claim theorems -/

/-- C1: for every report and every tolerance, `get_green_light` returns
true iff the report passed and its risk level is at most the tolerance
under the total order LOW < MEDIUM < HIGH < BLOCKED. -/
theorem gate_code_iff_passed_and_within_tolerance (r : SafetyResult) (tol : RiskLevel) :
    get_green_light r tol = (r.passed && riskLE r.risk_level tol) := by
  rcases r with ⟨p, rl, m, ra, v, o⟩
  cases p <;> cases rl <;> cases tol <;> rfl

/-- C2 (failing input): `dry_run("SELECT 1;", "sql")` lets the `re.error`
raised while compiling the fifth SQL blocklist pattern (a variable-width
lookbehind) escape to the caller — `validate_code` runs outside the
`try`/`except` — instead of returning a structured
`passed=false, risk=HIGH` report. -/
theorem dry_run_select1_raises_regex_error {σ : Type} (eng : SqliteEngine σ)
    (schema_sql sample_data_sql : Option String) :
    dry_run eng "SELECT 1;" "sql" schema_sql sample_data_sql =
      { result := .error "look-behind requires fixed-width pattern",
        storage_allocated := false } := rfl

/-- C3 (failing input): on an `UPDATE` without `WHERE`,
`validate_code(code, "sql")` raises `re.error` while compiling the
`UPDATE`-without-`WHERE` blocklist regex instead of returning
`safe=false, risk=BLOCKED`. -/
theorem validate_update_without_where_raises :
    validate_code "UPDATE users SET active=1;" "sql" =
      .error "look-behind requires fixed-width pattern" := rfl

/-- C4 (failing input): Scenario A's dry run raises `re.error` before the
sandbox database is even allocated, instead of returning
`passed=true, risk=LOW, rows_affected=1`. -/
theorem dry_run_scenarioA_raises {σ : Type} (eng : SqliteEngine σ)
    (schema_sql sample_data_sql : Option String) :
    dry_run eng "UPDATE users SET active=1 WHERE id=5;" "sql" schema_sql sample_data_sql =
      { result := .error "look-behind requires fixed-width pattern",
        storage_allocated := false } := rfl

/-- C5 (failing input): on SQL containing both `DROP` (as the permitted
`DROP TABLE IF EXISTS`) and `ALTER`, `validate_code` raises `re.error`
before any risk escalation runs; moreover the risk-indicator block
itself, applied to the uppercased code as lines 91-104 do, yields MEDIUM
— the later `ALTER` assignment overwrites the HIGH set by `DROP` — not
the claimed maximum of at least HIGH. -/
theorem escalation_unreachable_and_nonmonotone :
    validate_code "DROP TABLE IF EXISTS tmp; ALTER TABLE t2" "sql" =
      .error "look-behind requires fixed-width pattern" ∧
    sql_risk_heuristics (pyUpper "DROP TABLE IF EXISTS tmp; ALTER TABLE t2") =
      (true, "Code passed static analysis", RiskLevel.MEDIUM) :=
  ⟨rfl, rfl⟩

/-- C6 (counterexample): a passed report with risk BLOCKED is approved by
`get_green_light` at tolerance BLOCKED — BLOCKED is not unconditionally
rejecting, since `index(BLOCKED) <= index(BLOCKED)` holds. -/
theorem gate_blocked_tolerance_blocked_cex :
    get_green_light blockedPassedReport RiskLevel.BLOCKED = true := rfl

/-- C6 (amended): for every report with risk level BLOCKED and every
tolerance other than BLOCKED, `get_green_light` returns false, including
for reports with `passed=true`. -/
theorem gate_blocked_rejects_below_blocked (r : SafetyResult) (tol : RiskLevel)
    (hb : r.risk_level = RiskLevel.BLOCKED) (ht : tol ≠ RiskLevel.BLOCKED) :
    get_green_light r tol = false := by
  rcases r with ⟨p, rl, m, ra, v, o⟩
  cases hb
  cases p <;> cases tol <;> first | rfl | exact absurd rfl ht

/-- C6 (witness): the amended statement applied to a passed BLOCKED
report at tolerance HIGH. -/
theorem gate_blocked_rejects_below_blocked_witness :
    blockedPassedReport.risk_level = RiskLevel.BLOCKED ∧
    RiskLevel.HIGH ≠ RiskLevel.BLOCKED ∧
    get_green_light blockedPassedReport RiskLevel.HIGH = false :=
  ⟨rfl, by decide,
   gate_blocked_rejects_below_blocked blockedPassedReport RiskLevel.HIGH rfl (by decide)⟩

/-- C7: `dry_run("DELETE FROM logs;", "sql")` is rejected by the static
validator (fourth blocklist pattern) with `passed=false, risk=BLOCKED`,
and the temporary sandbox database is never allocated. -/
theorem dry_run_delete_blocked_no_storage {σ : Type} (eng : SqliteEngine σ)
    (schema_sql sample_data_sql : Option String) :
    dry_run eng "DELETE FROM logs;" "sql" schema_sql sample_data_sql =
      { result := .ok { passed := false, risk_level := RiskLevel.BLOCKED,
                        message := "Blocked pattern detected: \\bDELETE\\s+FROM\\s+\\w+\\s*;" },
        storage_allocated := false } := rfl

/-- C8: content containing a universal forbidden phrase (case-insensitive
substring) always fails `check_content`, with an issue naming that
phrase, regardless of the client word list, required tone or length
limit. -/
theorem forbidden_word_always_fails (content word : String)
    (forbidden_words : List String) (required_tone : String) (max_length : Nat)
    (h1 : word ∈ UNIVERSAL_FORBIDDEN)
    (h2 : strContains (pyLower content) (pyLower word) = true) :
    (check_content content forbidden_words required_tone max_length).passed = false ∧
    ("Forbidden word detected: \x27" ++ word ++ "\x27")
      ∈ (check_content content forbidden_words required_tone max_length).issues_found := by
  have hu : ("Forbidden word detected: \x27" ++ word ++ "\x27")
      ∈ universal_issues (pyLower content) := by
    unfold universal_issues
    exact List.mem_map_of_mem _ (List.mem_filter.mpr ⟨h1, h2⟩)
  have hmem : ("Forbidden word detected: \x27" ++ word ++ "\x27")
      ∈ check_issues content forbidden_words required_tone max_length := by
    simp only [check_issues]
    exact List.mem_append_left _ (List.mem_append_left _ (List.mem_append_left _
      (List.mem_append_left _ (List.mem_append_left _ hu))))
  refine ⟨?_, hmem⟩
  show ((check_issues content forbidden_words required_tone max_length).length == 0) = false
  rw [beq_eq_false_iff_ne]
  intro hlen
  exact List.ne_nil_of_mem hmem (List.length_eq_zero.mp hlen)

/-- C8 (witness): content containing "idiot" fails with the
corresponding issue. -/
theorem forbidden_word_always_fails_witness :
    ("idiot" ∈ UNIVERSAL_FORBIDDEN) ∧
    strContains (pyLower "Happy to help, you idiot!") (pyLower "idiot") = true ∧
    (check_content "Happy to help, you idiot!" [] "friendly" 1000).passed = false ∧
    ("Forbidden word detected: \x27" ++ "idiot" ++ "\x27")
      ∈ (check_content "Happy to help, you idiot!" [] "friendly" 1000).issues_found := by
  refine ⟨by decide, by decide, ?_, ?_⟩
  · exact (forbidden_word_always_fails "Happy to help, you idiot!" "idiot" [] "friendly" 1000
      (by decide) (by decide)).1
  · exact (forbidden_word_always_fails "Happy to help, you idiot!" "idiot" [] "friendly" 1000
      (by decide) (by decide)).2

/-- C9: for every input string and every required tone, the tone score
and the professionalism score both lie in the closed interval [0, 1]. -/
theorem scores_within_unit_interval (content required_tone : String) :
    0 ≤ calculate_tone_score content required_tone ∧
    calculate_tone_score content required_tone ≤ 1 ∧
    0 ≤ calculate_professionalism_score content ∧
    calculate_professionalism_score content ≤ 1 := by
  refine ⟨?_, ?_, ?_, ?_⟩
  · simp only [calculate_tone_score]
    refine le_min (by norm_num) (div_nonneg (Nat.cast_nonneg _) ?_)
    exact le_trans (by norm_num) (le_max_left 3 _)
  · simp only [calculate_tone_score]
    exact min_le_left _ _
  · simp only [calculate_professionalism_score]
    exact le_max_left 0 _
  · simp only [calculate_professionalism_score]
    exact max_le (by norm_num) (min_le_left _ _)

/-- C10: every report `dry_run` returns with `passed = true` has a risk
level different from BLOCKED: the safe branch of static validation only
hands LOW, MEDIUM or HIGH to the sandbox, and the sandbox's passing
reports carry exactly that level. -/
theorem dry_run_passed_never_blocked {σ : Type} (eng : SqliteEngine σ)
    (code fix_type : String) (schema_sql sample_data_sql : Option String) (r : SafetyResult)
    (hok : (dry_run eng code fix_type schema_sql sample_data_sql).result = Except.ok r)
    (hp : r.passed = true) : r.risk_level ≠ RiskLevel.BLOCKED := by
  unfold dry_run at hok
  split at hok
  · exact Except.noConfusion hok
  · rename_i is_safe message risk_level heq
    split at hok
    · injection hok with hok
      subst hok
      simp at hp
    · rename_i hsafe
      have his : is_safe = true := by
        cases is_safe
        · simp at hsafe
        · rfl
      subst his
      split at hok
      · injection hok with hok
        subst hok
        simp at hp
      · rename_i r' hbody
        injection hok with hok
        subst hok
        rw [dryRunBody_ok_risk eng code fix_type risk_level schema_sql sample_data_sql r' hbody hp]
        exact validate_code_safe_risk code fix_type message risk_level heq

/-- C10 (witness): the invariant applied to a concrete python-kind dry
run that passes with LOW risk. -/
theorem dry_run_passed_never_blocked_witness :
    (dry_run unitEngine "x = 1" "python" none none).result = Except.ok pythonOkSample ∧
    pythonOkSample.passed = true ∧
    pythonOkSample.risk_level ≠ RiskLevel.BLOCKED :=
  ⟨rfl, rfl, dry_run_passed_never_blocked unitEngine "x = 1" "python" none none
    pythonOkSample rfl rfl⟩

end SafetyLayerModel
